import Mathlib

/-!
Shallow embedding of `src/etl_pyspark.py`, a PySpark batch ETL that moves
denormalized retail sale rows into a star schema (four dimensions plus one
fact table).  DataFrames are embedded as Lean lists of records, the Spark
row-level column operations as pure functions on those records, `distinct()`
as `List.dedup`, the loader's single-column equijoins as nested `List.bind`
over filtered match lists, and the loader's straight-line JDBC calls as a
state-passing function over a warehouse state together with an event trace.
-/

/-- Calendar date produced by `f.to_date(col, "yyyy-MM-dd")`. -/
structure Date where
  ano : Nat
  mes : Nat
  dia : Nat
deriving DecidableEq

/-- Day count of a month, leap years included (Gregorian rules). -/
def daysInMonth (y m : Nat) : Nat :=
  if m = 2 then (if (y % 4 = 0 ∧ y % 100 ≠ 0) ∨ y % 400 = 0 then 29 else 28)
  else if m = 4 ∨ m = 6 ∨ m = 9 ∨ m = 11 then 30 else 31

/-- Numeric value of a list of decimal digit characters. -/
def digitsToNat (cs : List Char) : Nat :=
  cs.foldl (fun a c => a * 10 + (c.toNat - 48)) 0

/-- `f.to_date(col, "yyyy-MM-dd")`: strict fixed-format parse; `none` models the
null that Spark produces for an unparseable value. -/
def parseDate (s : String) : Option Date :=
  match s.data with
  | [y1, y2, y3, y4, h1, m1, m2, h2, d1, d2] =>
    if y1.isDigit ∧ y2.isDigit ∧ y3.isDigit ∧ y4.isDigit ∧ h1 = '-' ∧
        m1.isDigit ∧ m2.isDigit ∧ h2 = '-' ∧ d1.isDigit ∧ d2.isDigit then
      let y := digitsToNat [y1, y2, y3, y4]
      let m := digitsToNat [m1, m2]
      let d := digitsToNat [d1, d2]
      if 1 ≤ m ∧ m ≤ 12 ∧ 1 ≤ d ∧ d ≤ daysInMonth y m then some ⟨y, m, d⟩ else none
    else none
  | _ => none

/-- One row of the extractor's consolidated query (`extrair_dados`): a flat
denormalized sold line item.  Nullable columns — `idade`, `genero`,
`nome_produto` from the operational data and `custo_compra_unitario` from the
left join — are `Option`; the sale date arrives as text to be parsed. -/
structure SourceRecord where
  id_venda : Int
  data_venda : String
  id_produto : Int
  qtd_vendida : Int
  preco_venda : ℚ
  nome_produto : Option String
  nome_categoria_produto : String
  id_cliente : Int
  nome_cliente : String
  idade : Option Int
  genero : Option String
  nome_categoria_cliente : String
  id_localidade : Int
  cidade : String
  estado : String
  regiao : String
  custo_compra_unitario : Option ℚ
deriving DecidableEq

/-- Exact median of a list of integers, as Spark's `median` aggregate computes
it: middle element of the sorted list, or the mean of the two middle elements
when the count is even; `none` on the empty list (an all-null column). -/
def medianQ (l : List Int) : Option ℚ :=
  if l = [] then none
  else
    let s := List.insertionSort (· ≤ ·) l
    let n := s.length
    if n % 2 = 1 then some ((s.getD (n / 2) 0 : ℚ))
    else some (((s.getD (n / 2 - 1) 0 : ℚ) + (s.getD (n / 2) 0 : ℚ)) / 2)

/-- Python's `int(...)` on a rational: truncation toward zero.  The
denominator is positive, so truncating the quotient is `Int.tdiv`
(truncated division) of the numerator by the denominator: `int(-3.5) = -3`
just as `Int.tdiv (-7) 2 = -3`. -/
def truncRat (q : ℚ) : Int :=
  q.num.tdiv (q.den : Int)

/-- The fallback age constant of line 61 (`... if idade_mediana is not None else 35`). -/
def idadePadrao : Int := 35

/-- The fill value `na.fill` uses for the `idade` column: `int(median)` of the
non-null ages of the whole extracted dataset, or the fallback when every age
is null (lines 59–61). -/
def fillIdade (df : List SourceRecord) : Int :=
  match medianQ (df.filterMap (fun r => r.idade)) with
  | some m => truncRat m
  | none => idadePadrao

/-- `f.upper`: uppercase every character of the state/region code. -/
def upperAscii (s : String) : String :=
  String.mk (s.data.map Char.toUpper)

/-- Gender column treatment: `na.fill` with the sentinel (line 62) followed by
the `when/when/otherwise` standardization (lines 68–72). -/
def padronizarGenero (g : Option String) : String :=
  let g1 := g.getD "Não informado"
  if g1 = "M" then "Masculino" else if g1 = "F" then "Feminino" else g1

/-- A cleansed fact-candidate row: all columns of the source row after null
repair, standardization, date conversion and the `valor_total` computation. -/
structure CleanRecord where
  id_venda : Int
  data_venda : Date
  id_produto : Int
  qtd_vendida : Int
  preco_venda : ℚ
  nome_produto : String
  nome_categoria_produto : String
  id_cliente : Int
  nome_cliente : String
  idade : Int
  genero : String
  nome_categoria_cliente : String
  id_localidade : Int
  cidade : String
  estado : String
  regiao : String
  custo_compra_unitario : ℚ
  valor_total : ℚ
deriving DecidableEq

/-- Spark's `f.round(col, 2)`: HALF_UP rounding (ties away from zero) to two
decimal places, on exact decimal arithmetic. -/
def roundHalfUp2 (q : ℚ) : ℚ :=
  if 0 ≤ q then (⌊q * 100 + 1 / 2⌋ : ℚ) / 100
  else -((⌊-q * 100 + 1 / 2⌋ : ℚ) / 100)

/-- The per-row column transformations of `transformar_dados` applied to one
source row whose date parsed to `d`: null repair (lines 60–65), gender
standardization and `estado` uppercasing (lines 68–73), and the
`valor_total = round(qtd_vendida * preco_venda, 2)` computation (line 81).
`fill` is the dataset-wide age fill value. -/
def transformRow (fill : Int) (r : SourceRecord) (d : Date) : CleanRecord where
  id_venda := r.id_venda
  data_venda := d
  id_produto := r.id_produto
  qtd_vendida := r.qtd_vendida
  preco_venda := r.preco_venda
  nome_produto := r.nome_produto.getD "Produto não informado"
  nome_categoria_produto := r.nome_categoria_produto
  id_cliente := r.id_cliente
  nome_cliente := r.nome_cliente
  idade := r.idade.getD fill
  genero := padronizarGenero r.genero
  nome_categoria_cliente := r.nome_categoria_cliente
  id_localidade := r.id_localidade
  cidade := r.cidade
  estado := upperAscii r.estado
  regiao := r.regiao
  custo_compra_unitario := r.custo_compra_unitario.getD 0
  valor_total := roundHalfUp2 ((r.qtd_vendida : ℚ) * r.preco_venda)

/-- Customer dimension row (line 84). -/
structure DimCliente where
  id_cliente : Int
  nome_cliente : String
  idade : Int
  genero : String
  nome_categoria_cliente : String
deriving DecidableEq

/-- Product dimension row (line 85). -/
structure DimProduto where
  id_produto : Int
  nome_produto : String
  nome_categoria_produto : String
deriving DecidableEq

/-- Location dimension row (line 86). -/
structure DimLocalidade where
  id_localidade : Int
  cidade : String
  estado : String
  regiao : String
deriving DecidableEq

/-- Time dimension row (lines 88–92): a distinct sale date with derived
calendar attributes. -/
structure DimTempo where
  data_venda : Date
  ano : Nat
  mes : Nat
  dia : Nat
  trimestre : Nat
deriving DecidableEq

/-- `f.quarter`: quarter 1–4 from the month. -/
def trimestreDe (m : Nat) : Nat := (m + 2) / 3

/-- Expansion of a distinct date into its `dim_tempo` row (lines 88–92). -/
def tempoRow (d : Date) : DimTempo where
  data_venda := d
  ano := d.ano
  mes := d.mes
  dia := d.dia
  trimestre := trimestreDe d.mes

/-- The projection of a cleansed row onto the customer dimension columns. -/
def clienteDe (c : CleanRecord) : DimCliente :=
  ⟨c.id_cliente, c.nome_cliente, c.idade, c.genero, c.nome_categoria_cliente⟩

/-- The projection of a cleansed row onto the product dimension columns. -/
def produtoDe (c : CleanRecord) : DimProduto :=
  ⟨c.id_produto, c.nome_produto, c.nome_categoria_produto⟩

/-- The projection of a cleansed row onto the location dimension columns. -/
def localidadeDe (c : CleanRecord) : DimLocalidade :=
  ⟨c.id_localidade, c.cidade, c.estado, c.regiao⟩

/-- `transformar_dados` (lines 53–94): computes the age median once over the
whole dataset, cleanses every row, converts the sale date and drops rows whose
date does not parse (`na.drop`), computes `valor_total`, and derives the four
dimension datasets by `select(...).distinct()` from the cleansed dataset.
Returns the four dimensions plus the cleansed fact-candidate dataset. -/
def transformar_dados (df : List SourceRecord) :
    List DimCliente × List DimProduto × List DimLocalidade × List DimTempo × List CleanRecord :=
  let fill := fillIdade df
  let cleansed := df.filterMap (fun r => (parseDate r.data_venda).map (transformRow fill r))
  let dim_cliente := (cleansed.map clienteDe).dedup
  let dim_produto := (cleansed.map produtoDe).dedup
  let dim_localidade := (cleansed.map localidadeDe).dedup
  let dim_tempo := ((cleansed.map (fun c => c.data_venda)).dedup).map tempoRow
  (dim_cliente, dim_produto, dim_localidade, dim_tempo, cleansed)

/-- One row of the `fato_vendas` table: the four surrogate keys plus the
measure columns selected on lines 121–131. -/
structure FatoVenda where
  sk_cliente : Int
  sk_produto : Int
  sk_localidade : Int
  sk_tempo : Int
  id_venda : Int
  qtd_vendida : Int
  preco_venda : ℚ
  valor_total : ℚ
  custo_compra_unitario : ℚ
deriving DecidableEq

/-- Modelled from the spec: the warehouse (whose DDL is not under `src/`)
assigns an auto-incrementing surrogate key to each dimension row on write, so
a re-read dimension table is the written rows each paired with its key. -/
def comSurrogates {α : Type} (l : List α) : List (Int × α) :=
  (List.range l.length).zip l |>.map (fun p => ((p.1 : Int) + 1, p.2))

/-- The `dim_cliente_sk` rows matching a fact-candidate row in the equijoin
`df.join(dim_cliente_sk, "id_cliente")` of line 117. -/
def matchCliente (dcs : List (Int × DimCliente)) (r : CleanRecord) : List (Int × DimCliente) :=
  dcs.filter (fun d => d.2.id_cliente == r.id_cliente)

/-- The `dim_produto_sk` rows matching a fact-candidate row (line 118). -/
def matchProduto (dps : List (Int × DimProduto)) (r : CleanRecord) : List (Int × DimProduto) :=
  dps.filter (fun d => d.2.id_produto == r.id_produto)

/-- The `dim_localidade_sk` rows matching a fact-candidate row (line 119). -/
def matchLocalidade (dls : List (Int × DimLocalidade)) (r : CleanRecord) :
    List (Int × DimLocalidade) :=
  dls.filter (fun d => d.2.id_localidade == r.id_localidade)

/-- The `dim_tempo_sk` rows matching a fact-candidate row (line 120). -/
def matchTempo (dts : List (Int × DimTempo)) (r : CleanRecord) : List (Int × DimTempo) :=
  dts.filter (fun d => d.2.data_venda == r.data_venda)

/-- The projected fact row built from one candidate row and a matching entry
of each re-read dimension (the `select` of lines 121–131). -/
def projetarFato (r : CleanRecord) (dc : Int × DimCliente) (dp : Int × DimProduto)
    (dl : Int × DimLocalidade) (dt : Int × DimTempo) : FatoVenda where
  sk_cliente := dc.1
  sk_produto := dp.1
  sk_localidade := dl.1
  sk_tempo := dt.1
  id_venda := r.id_venda
  qtd_vendida := r.qtd_vendida
  preco_venda := r.preco_venda
  valor_total := r.valor_total
  custo_compra_unitario := r.custo_compra_unitario

/-- S3/S4 of the loader (lines 116–131): the fact-candidate dataset
inner-joined against the four re-read dimensions on the respective single key
column, then projected to surrogate keys plus measures. -/
def resolverFatos (df : List CleanRecord) (dcs : List (Int × DimCliente))
    (dps : List (Int × DimProduto)) (dls : List (Int × DimLocalidade))
    (dts : List (Int × DimTempo)) : List FatoVenda :=
  df.flatMap (fun r =>
    (matchCliente dcs r).flatMap (fun dc =>
      (matchProduto dps r).flatMap (fun dp =>
        (matchLocalidade dls r).flatMap (fun dl =>
          (matchTempo dts r).map (fun dt => projetarFato r dc dp dl dt)))))

/-- The warehouse tables: four dimension tables (rows carry their
warehouse-assigned surrogate key) and the fact table. -/
structure Warehouse where
  dim_cliente : List (Int × DimCliente)
  dim_produto : List (Int × DimProduto)
  dim_localidade : List (Int × DimLocalidade)
  dim_tempo : List (Int × DimTempo)
  fato_vendas : List FatoVenda
deriving DecidableEq

/-- One JDBC interaction of `carregar_dados` with the warehouse. -/
inductive DWEvent where
  | writeDimCliente
  | writeDimProduto
  | writeDimLocalidade
  | writeDimTempo
  | readDimCliente
  | readDimProduto
  | readDimLocalidade
  | readDimTempo
  | writeFato
deriving DecidableEq

/-- Whether an event is one of the four dimension writes (lines 101–104). -/
def DWEvent.isDimWrite : DWEvent → Bool
  | .writeDimCliente | .writeDimProduto | .writeDimLocalidade | .writeDimTempo => true
  | _ => false

/-- Whether an event is one of the four dimension read-backs (lines 110–113). -/
def DWEvent.isDimRead : DWEvent → Bool
  | .readDimCliente | .readDimProduto | .readDimLocalidade | .readDimTempo => true
  | _ => false

/-- `carregar_dados` (lines 96–135) as a state-passing function over the
warehouse plus the trace of its JDBC interactions, in program order: the four
dimension writes in `mode="overwrite"` (each replaces the table's previous
contents), the four read-backs that obtain the surrogate keys, the key
resolution join, and the overwriting fact write. -/
def carregar_dados (dc : List DimCliente) (dp : List DimProduto) (dl : List DimLocalidade)
    (dt : List DimTempo) (df : List CleanRecord) (w : Warehouse) :
    Warehouse × List DWEvent :=
  let w1 := { w with dim_cliente := comSurrogates dc }
  let w2 := { w1 with dim_produto := comSurrogates dp }
  let w3 := { w2 with dim_localidade := comSurrogates dl }
  let w4 := { w3 with dim_tempo := comSurrogates dt }
  let dim_cliente_sk := w4.dim_cliente
  let dim_produto_sk := w4.dim_produto
  let dim_localidade_sk := w4.dim_localidade
  let dim_tempo_sk := w4.dim_tempo
  let fato := resolverFatos df dim_cliente_sk dim_produto_sk dim_localidade_sk dim_tempo_sk
  let w5 := { w4 with fato_vendas := fato }
  (w5, [.writeDimCliente, .writeDimProduto, .writeDimLocalidade, .writeDimTempo,
        .readDimCliente, .readDimProduto, .readDimLocalidade, .readDimTempo, .writeFato])

/-- The loader's JDBC interaction sequence in program order (lines 101–134):
four overwriting dimension writes, four read-backs, one fact write. -/
def traceCarga : List DWEvent :=
  [.writeDimCliente, .writeDimProduto, .writeDimLocalidade, .writeDimTempo,
   .readDimCliente, .readDimProduto, .readDimLocalidade, .readDimTempo, .writeFato]

/-- The full transform-and-load data path on one run: `transformar_dados`
followed by `carregar_dados` against an initial warehouse state. -/
def runPipeline (df : List SourceRecord) (w : Warehouse) : Warehouse :=
  let t := transformar_dados df
  (carregar_dados t.1 t.2.1 t.2.2.1 t.2.2.2.1 t.2.2.2.2 w).1

/-- An empty warehouse, used to instantiate concrete runs. -/
def dwVazio : Warehouse := ⟨[], [], [], [], []⟩

/-- A fully populated source row used as the base of the concrete datasets. -/
def linhaBase : SourceRecord where
  id_venda := 1
  data_venda := "2023-01-02"
  id_produto := 7
  qtd_vendida := 2
  preco_venda := 10
  nome_produto := some "Caneta"
  nome_categoria_produto := "Papelaria"
  id_cliente := 5
  nome_cliente := "Ana"
  idade := some 30
  genero := some "F"
  nome_categoria_cliente := "Varejo"
  id_localidade := 3
  cidade := "Recife"
  estado := "PE"
  regiao := "Nordeste"
  custo_compra_unitario := some 4

/-- Two source rows that share the customer natural key `id_cliente = 5` but
carry different customer names, as the operational store may deliver. -/
def linhasClienteDuplicado : List SourceRecord :=
  [linhaBase, { linhaBase with id_venda := 2, nome_cliente := "Bia" }]

/-- Four rows with ages 20, null, 40 and 60, all with valid dates. -/
def linhasIdades : List SourceRecord :=
  [{ linhaBase with idade := some 20 },
   { linhaBase with id_venda := 2, idade := none },
   { linhaBase with id_venda := 3, idade := some 40 },
   { linhaBase with id_venda := 4, idade := some 60 }]

/-- Rows in which every age is null. -/
def linhasSemIdade : List SourceRecord :=
  [{ linhaBase with idade := none },
   { linhaBase with id_venda := 2, idade := none }]

/-- The one row of `linhasDatas` whose sale date does not parse; all its
natural keys are unique to it. -/
def linhaDataInvalida : SourceRecord :=
  { linhaBase with
      id_venda := 99
      data_venda := "02/01/2023"
      id_cliente := 99
      id_produto := 99
      id_localidade := 99
      nome_cliente := "Zoe"
      cidade := "Natal" }

/-- Five rows of which exactly one (sale id 99, with otherwise unique keys)
has an unparseable sale date. -/
def linhasDatas : List SourceRecord :=
  [linhaBase,
   { linhaBase with id_venda := 2, data_venda := "2023-01-03" },
   linhaDataInvalida,
   { linhaBase with id_venda := 4, data_venda := "2023-02-28" },
   { linhaBase with id_venda := 5, data_venda := "2024-02-29" }]

/-- A row whose age (10) rides on an unparseable date, next to surviving rows
with ages 20, null and 30: the invalid-date row still feeds the median. -/
def linhasMedianaDatas : List SourceRecord :=
  [{ linhaBase with data_venda := "not-a-date", idade := some 10 },
   { linhaBase with id_venda := 2, idade := some 20 },
   { linhaBase with id_venda := 3, idade := none },
   { linhaBase with id_venda := 4, idade := some 30 }]

/-- One row with quantity 3 and unit price 10.005. -/
def linhasArredondamento : List SourceRecord :=
  [{ linhaBase with qtd_vendida := 3, preco_venda := 10.005 }]

/-- Every cleansed fact-candidate row is the transform of a source row whose
sale date parsed. -/
theorem mem_cleansed {df : List SourceRecord} {c : CleanRecord}
    (h : c ∈ (transformar_dados df).2.2.2.2) :
    ∃ r ∈ df, ∃ d : Date, parseDate r.data_venda = some d ∧
      c = transformRow (fillIdade df) r d := by
  simp only [transformar_dados] at h
  rw [List.mem_filterMap] at h
  obtain ⟨r, hr, hmap⟩ := h
  cases hp : parseDate r.data_venda with
  | none => rw [hp] at hmap; simp at hmap
  | some d =>
    rw [hp] at hmap
    simp only [Option.map_some', Option.some.injEq] at hmap
    exact ⟨r, hr, d, hp, hmap.symm⟩

/-- Every source row whose sale date parses survives into the cleansed
fact-candidate dataset. -/
theorem cleansed_of_parse {df : List SourceRecord} {r : SourceRecord} {d : Date}
    (hr : r ∈ df) (hp : parseDate r.data_venda = some d) :
    transformRow (fillIdade df) r d ∈ (transformar_dados df).2.2.2.2 := by
  simp only [transformar_dados]
  rw [List.mem_filterMap]
  exact ⟨r, hr, by rw [hp]; rfl⟩

/-- The median aggregate is invariant under permutation of its input. -/
theorem medianQ_perm {l₁ l₂ : List Int} (h : l₁.Perm l₂) : medianQ l₁ = medianQ l₂ := by
  have hsort : List.insertionSort (· ≤ ·) l₁ = List.insertionSort (· ≤ ·) l₂ :=
    List.eq_of_perm_of_sorted
      (((List.perm_insertionSort _ l₁).trans h).trans (List.perm_insertionSort _ l₂).symm)
      (List.sorted_insertionSort _ l₁) (List.sorted_insertionSort _ l₂)
  by_cases h1 : l₁ = []
  · have h2 : l₂ = [] := by
      subst h1
      exact (List.Perm.nil_eq h).symm
    rw [h1, h2]
  · have h2 : l₂ ≠ [] := by
      intro h2
      subst h2
      exact h1 (List.Perm.eq_nil h)
    rw [medianQ, medianQ, if_neg h1, if_neg h2, hsort]

/-- `medianQ` returns a value on every nonempty list. -/
theorem medianQ_ne_none {l : List Int} (h : l ≠ []) : ∃ m, medianQ l = some m := by
  rw [medianQ, if_neg h]
  by_cases hpar : (List.insertionSort (· ≤ ·) l).length % 2 = 1
  · exact ⟨_, if_pos hpar⟩
  · exact ⟨_, if_neg hpar⟩

/-- C3: for a dataset with at least one non-null age, every null age is
filled with the integer median of all non-null ages, computed once over the
whole dataset ({20, null, 40, 60} repairs to 40); with all-null ages, the
fill value is the fixed fallback constant. -/
theorem idade_mediana_imputacao :
    (∀ df : List SourceRecord, df.filterMap (fun r => r.idade) ≠ [] →
      ∀ r ∈ df, r.idade = none → ∀ d : Date, parseDate r.data_venda = some d →
        transformRow (fillIdade df) r d ∈ (transformar_dados df).2.2.2.2 ∧
        (transformRow (fillIdade df) r d).idade =
          truncRat ((medianQ (df.filterMap (fun s => s.idade))).getD 0)) ∧
    (∀ df : List SourceRecord, df.filterMap (fun r => r.idade) = [] →
      ∀ r ∈ df, r.idade = none → ∀ d : Date, parseDate r.data_venda = some d →
        (transformRow (fillIdade df) r d).idade = idadePadrao) ∧
    medianQ [20, 40, 60] = some 40 ∧
    ((transformar_dados linhasIdades).2.2.2.2.map (fun c => c.idade)) = [20, 40, 40, 60] := by
  refine ⟨?_, ?_, by decide, by decide⟩
  · intro df hne r hr hnone d hp
    refine ⟨cleansed_of_parse hr hp, ?_⟩
    have hidade : (transformRow (fillIdade df) r d).idade = fillIdade df := by
      simp [transformRow, hnone]
    obtain ⟨m, hm⟩ := medianQ_ne_none hne
    rw [hidade]
    simp only [fillIdade, hm, Option.getD_some]
  · intro df hnil r hr hnone d hp
    simp [transformRow, hnone, fillIdade, hnil, medianQ]

/-- C3 witness: in the dataset with ages {20, null, 40, 60} the null age of
the second row is repaired to 40, the integer median. -/
theorem idade_mediana_imputacao_witness :
    (transformRow (fillIdade linhasIdades)
        { linhaBase with id_venda := 2, idade := none } ⟨2023, 1, 2⟩).idade =
      truncRat ((medianQ (linhasIdades.filterMap (fun s => s.idade))).getD 0) ∧
    truncRat ((medianQ (linhasIdades.filterMap (fun s => s.idade))).getD 0) = 40 :=
  ⟨(idade_mediana_imputacao.1 linhasIdades (by decide)
      { linhaBase with id_venda := 2, idade := none }
      (List.mem_cons_of_mem _ (List.mem_cons_self _ _)) rfl ⟨2023, 1, 2⟩ (by decide)).2,
    by decide⟩

/-- C4: the gender repair-then-standardize composition is a total function:
"M" maps to "Masculino", "F" to "Feminino", null to the sentinel
"Não informado", and any other value (the sentinel included) passes through
unchanged; every cleansed row's gender is this function of its source value. -/
theorem genero_funcao_total :
    padronizarGenero (some "M") = "Masculino" ∧
    padronizarGenero (some "F") = "Feminino" ∧
    padronizarGenero none = "Não informado" ∧
    padronizarGenero (some "Não informado") = "Não informado" ∧
    (∀ s : String, s ≠ "M" → s ≠ "F" → padronizarGenero (some s) = s) ∧
    (∀ df : List SourceRecord, ∀ c ∈ (transformar_dados df).2.2.2.2,
      ∃ r ∈ df, c.genero = padronizarGenero r.genero) := by
  refine ⟨rfl, rfl, rfl, by decide, ?_, ?_⟩
  · intro s hM hF
    simp only [padronizarGenero, Option.getD_some]
    rw [if_neg hM, if_neg hF]
  · intro df c hc
    obtain ⟨r, hr, d, hp, hcd⟩ := mem_cleansed hc
    exact ⟨r, hr, by rw [hcd]; rfl⟩

/-- C4 witness: the unmapped code "X" passes through the composition
unchanged. -/
theorem genero_funcao_total_witness : padronizarGenero (some "X") = "X" :=
  genero_funcao_total.2.2.2.2.1 "X" (by decide) (by decide)

/-- C9: when every age of the input dataset is null, the fill value used for
missing ages is exactly 35. -/
theorem idade_reserva_35 :
    (∀ df : List SourceRecord, (∀ r ∈ df, r.idade = none) → fillIdade df = 35) ∧
    (∀ df : List SourceRecord, (∀ r ∈ df, r.idade = none) →
      ∀ r ∈ df, ∀ d : Date, parseDate r.data_venda = some d →
        transformRow (fillIdade df) r d ∈ (transformar_dados df).2.2.2.2 ∧
        (transformRow (fillIdade df) r d).idade = 35) ∧
    ((transformar_dados linhasSemIdade).2.2.2.2.map (fun c => c.idade)) = [35, 35] := by
  have hfill : ∀ df : List SourceRecord, (∀ r ∈ df, r.idade = none) → fillIdade df = 35 := by
    intro df h
    have hnil : df.filterMap (fun r => r.idade) = [] := List.filterMap_eq_nil_iff.mpr h
    simp [fillIdade, hnil, medianQ, idadePadrao]
  refine ⟨hfill, ?_, by decide⟩
  intro df h r hr d hp
  refine ⟨cleansed_of_parse hr hp, ?_⟩
  simp [transformRow, h r hr, hfill df h]

/-- C9 witness: on the concrete all-null dataset, the first row's repaired age
is 35. -/
theorem idade_reserva_35_witness :
    (transformRow (fillIdade linhasSemIdade)
        { linhaBase with idade := none } ⟨2023, 1, 2⟩).idade = 35 :=
  (idade_reserva_35.2.1 linhasSemIdade (by decide) { linhaBase with idade := none }
    (List.mem_cons_self _ _) ⟨2023, 1, 2⟩ (by decide)).2

/-- C10: the age median is computed over the non-null ages of all extracted
rows, before date validation: rewriting every sale date (even to unparseable
text) leaves the fill value unchanged, and in the concrete dataset the age 10
of the invalid-date row pulls the imputed value down to 20, whereas the
surviving rows alone would have median 25. -/
theorem mediana_antes_das_datas :
    (∀ (df : List SourceRecord) (g : SourceRecord → String),
      fillIdade (df.map (fun r => { r with data_venda := g r })) = fillIdade df) ∧
    ((transformar_dados linhasMedianaDatas).2.2.2.2.map (fun c => c.idade)) = [20, 20, 30] ∧
    (transformar_dados linhasMedianaDatas).2.2.2.2.length = 3 ∧
    fillIdade linhasMedianaDatas = 20 ∧
    truncRat ((medianQ [20, 30]).getD 0) = 25 := by
  refine ⟨?_, by decide, by decide, by decide, ?_⟩
  · intro df g
    have hages : (df.map (fun r => { r with data_venda := g r })).filterMap
        (fun r => r.idade) = df.filterMap (fun r => r.idade) := by
      rw [List.filterMap_map]
      rfl
    rw [fillIdade, fillIdade, hages]
  · have h2530 : medianQ [20, 30] = some 25 := by
      norm_num [medianQ, List.insertionSort, List.orderedInsert]
      intro h
      exact absurd h (by decide)
    rw [h2530]
    simp only [Option.getD_some, truncRat]
    have h1 : (25 : ℚ).num = 25 := by norm_num
    have h2 : (25 : ℚ).den = 1 := by norm_num
    rw [h1, h2]
    decide

/-- C10 witness: appending an unparseable marker to every date of the ages
dataset does not change the fill value. -/
theorem mediana_antes_das_datas_witness :
    fillIdade (linhasMedianaDatas.map
        (fun r => { r with data_venda := "xx" })) = fillIdade linhasMedianaDatas :=
  mediana_antes_das_datas.1 linhasMedianaDatas (fun _ => "xx")

/-- The cleansed dataset has one row per source row whose date parses. -/
theorem length_cleansed (df : List SourceRecord) (fill : Int) :
    (df.filterMap (fun r => (parseDate r.data_venda).map (transformRow fill r))).length =
      (df.filter (fun r => (parseDate r.data_venda).isSome)).length := by
  induction df with
  | nil => rfl
  | cons r t ih =>
    cases hp : parseDate r.data_venda with
    | none => simp [List.filterMap_cons, List.filter_cons, hp, ih]
    | some d => simp [List.filterMap_cons, List.filter_cons, hp, ih]

/-- C5: the transformer eliminates exactly the rows whose sale date fails the
strict `yyyy-MM-dd` parse — every parseable row survives, every survivor stems
from a parseable row, and each dimension row stems from a survivor; on the
5-row dataset with one bad date, 4 rows survive and the dropped row's keys
reach no dimension and no fact output. -/
theorem datas_invalidas_eliminadas :
    (∀ df : List SourceRecord,
      (transformar_dados df).2.2.2.2.length =
        (df.filter (fun r => (parseDate r.data_venda).isSome)).length) ∧
    (∀ df : List SourceRecord, ∀ r ∈ df, ∀ d : Date, parseDate r.data_venda = some d →
      transformRow (fillIdade df) r d ∈ (transformar_dados df).2.2.2.2) ∧
    (∀ df : List SourceRecord, ∀ c ∈ (transformar_dados df).2.2.2.2,
      ∃ r ∈ df, ∃ d : Date, parseDate r.data_venda = some d ∧
        c = transformRow (fillIdade df) r d) ∧
    (∀ df : List SourceRecord, ∀ x ∈ (transformar_dados df).1,
      ∃ c ∈ (transformar_dados df).2.2.2.2, x = clienteDe c) ∧
    (∀ df : List SourceRecord, ∀ x ∈ (transformar_dados df).2.1,
      ∃ c ∈ (transformar_dados df).2.2.2.2, x = produtoDe c) ∧
    (∀ df : List SourceRecord, ∀ x ∈ (transformar_dados df).2.2.1,
      ∃ c ∈ (transformar_dados df).2.2.2.2, x = localidadeDe c) ∧
    (∀ df : List SourceRecord, ∀ x ∈ (transformar_dados df).2.2.2.1,
      ∃ c ∈ (transformar_dados df).2.2.2.2, x = tempoRow c.data_venda) ∧
    parseDate linhaDataInvalida.data_venda = none ∧
    linhasDatas.length = 5 ∧
    (transformar_dados linhasDatas).2.2.2.2.length = 4 ∧
    ¬ (99 ∈ (transformar_dados linhasDatas).2.2.2.2.map (fun c => c.id_venda)) ∧
    ¬ (99 ∈ (transformar_dados linhasDatas).1.map (fun x => x.id_cliente)) ∧
    ¬ (99 ∈ (transformar_dados linhasDatas).2.1.map (fun x => x.id_produto)) ∧
    ¬ (99 ∈ (transformar_dados linhasDatas).2.2.1.map (fun x => x.id_localidade)) ∧
    (runPipeline linhasDatas dwVazio).fato_vendas.length = 4 ∧
    ¬ (99 ∈ (runPipeline linhasDatas dwVazio).fato_vendas.map (fun x => x.id_venda)) := by
  refine ⟨fun df => length_cleansed df (fillIdade df),
    fun df r hr d hp => cleansed_of_parse hr hp,
    fun df c hc => mem_cleansed hc, ?_, ?_, ?_, ?_,
    by decide, by decide, by decide, by decide, by decide, by decide, by decide,
    by decide, by decide⟩
  · intro df x hx
    obtain ⟨c, hc, hcd⟩ := List.mem_map.mp (List.mem_dedup.mp hx)
    exact ⟨c, hc, hcd.symm⟩
  · intro df x hx
    obtain ⟨c, hc, hcd⟩ := List.mem_map.mp (List.mem_dedup.mp hx)
    exact ⟨c, hc, hcd.symm⟩
  · intro df x hx
    obtain ⟨c, hc, hcd⟩ := List.mem_map.mp (List.mem_dedup.mp hx)
    exact ⟨c, hc, hcd.symm⟩
  · intro df x hx
    obtain ⟨d, hd, hdx⟩ := List.mem_map.mp hx
    obtain ⟨c, hc, hcd⟩ := List.mem_map.mp (List.mem_dedup.mp hd)
    exact ⟨c, hc, by rw [← hdx, hcd]⟩

/-- C5 witness: the first row of the 5-row dataset parses and survives. -/
theorem datas_invalidas_eliminadas_witness :
    transformRow (fillIdade linhasDatas) linhaBase ⟨2023, 1, 2⟩ ∈
      (transformar_dados linhasDatas).2.2.2.2 :=
  datas_invalidas_eliminadas.2.1 linhasDatas linhaBase (List.mem_cons_self _ _)
    ⟨2023, 1, 2⟩ (by decide)

/-- C6: every cleansed row's total value is `roundHalfUp2` of quantity times
unit price — one fixed rule (Spark's HALF_UP) applied to all rows, always a
multiple of 1/100; for quantity 3 and unit price 10.005 the result is exactly
30.02, one of the two outcomes the specification allows. -/
theorem valor_total_arredondado :
    (∀ df : List SourceRecord, ∀ c ∈ (transformar_dados df).2.2.2.2,
      ∃ r ∈ df, c.qtd_vendida = r.qtd_vendida ∧ c.preco_venda = r.preco_venda ∧
        c.valor_total = roundHalfUp2 ((r.qtd_vendida : ℚ) * r.preco_venda)) ∧
    (∀ q : ℚ, ∃ n : ℤ, roundHalfUp2 q = (n : ℚ) / 100) ∧
    roundHalfUp2 ((3 : ℚ) * 10.005) = 30.02 ∧
    ((transformar_dados linhasArredondamento).2.2.2.2.map (fun c => c.valor_total)) =
      [(30.02 : ℚ)] := by
  have hrule : roundHalfUp2 ((3 : ℚ) * 10.005) = 30.02 := by
    norm_num [roundHalfUp2]
  refine ⟨?_, ?_, hrule, ?_⟩
  · intro df c hc
    obtain ⟨r, hr, d, hp, hcd⟩ := mem_cleansed hc
    exact ⟨r, hr, by rw [hcd]; rfl, by rw [hcd]; rfl, by rw [hcd]; rfl⟩
  · intro q
    by_cases hq : 0 ≤ q
    · exact ⟨⌊q * 100 + 1 / 2⌋, by rw [roundHalfUp2, if_pos hq]⟩
    · refine ⟨-⌊-q * 100 + 1 / 2⌋, ?_⟩
      rw [roundHalfUp2, if_neg hq]
      push_cast
      ring
  · have hc : (transformar_dados linhasArredondamento).2.2.2.2 =
        [transformRow (fillIdade linhasArredondamento)
          { linhaBase with qtd_vendida := 3, preco_venda := 10.005 } ⟨2023, 1, 2⟩] := rfl
    rw [hc, List.map_cons, List.map_nil]
    have hv : (transformRow (fillIdade linhasArredondamento)
        { linhaBase with qtd_vendida := 3, preco_venda := 10.005 } ⟨2023, 1, 2⟩).valor_total =
        roundHalfUp2 (((3 : ℤ) : ℚ) * 10.005) := rfl
    rw [hv]
    norm_num [roundHalfUp2]

/-- C6 witness: the quantity-3, price-10.005 row of the concrete dataset
carries total value 30.02 computed by the one fixed rule. -/
theorem valor_total_arredondado_witness :
    ∃ r ∈ linhasArredondamento,
      (transformRow (fillIdade linhasArredondamento)
          { linhaBase with qtd_vendida := 3, preco_venda := 10.005 }
          ⟨2023, 1, 2⟩).qtd_vendida = r.qtd_vendida ∧
      (transformRow (fillIdade linhasArredondamento)
          { linhaBase with qtd_vendida := 3, preco_venda := 10.005 }
          ⟨2023, 1, 2⟩).preco_venda = r.preco_venda ∧
      (transformRow (fillIdade linhasArredondamento)
          { linhaBase with qtd_vendida := 3, preco_venda := 10.005 }
          ⟨2023, 1, 2⟩).valor_total = roundHalfUp2 ((r.qtd_vendida : ℚ) * r.preco_venda) :=
  valor_total_arredondado.1 linhasArredondamento _ (List.mem_singleton.mpr rfl)

/-- C7: the transformer is order-independent across rows: permuting the input
dataset permutes each of the four dimension datasets and the cleansed
fact-candidate dataset — the outputs are equal as multisets. -/
theorem transformar_ordem_independente (df₁ df₂ : List SourceRecord) (h : df₁.Perm df₂) :
    (transformar_dados df₁).1.Perm (transformar_dados df₂).1 ∧
    (transformar_dados df₁).2.1.Perm (transformar_dados df₂).2.1 ∧
    (transformar_dados df₁).2.2.1.Perm (transformar_dados df₂).2.2.1 ∧
    (transformar_dados df₁).2.2.2.1.Perm (transformar_dados df₂).2.2.2.1 ∧
    (transformar_dados df₁).2.2.2.2.Perm (transformar_dados df₂).2.2.2.2 := by
  have hfill : fillIdade df₁ = fillIdade df₂ := by
    rw [fillIdade, fillIdade, medianQ_perm (h.filterMap (fun r => r.idade))]
  have hcl : (transformar_dados df₁).2.2.2.2.Perm (transformar_dados df₂).2.2.2.2 := by
    show (df₁.filterMap
        (fun r => (parseDate r.data_venda).map (transformRow (fillIdade df₁) r))).Perm
      (df₂.filterMap
        (fun r => (parseDate r.data_venda).map (transformRow (fillIdade df₂) r)))
    rw [hfill]
    exact h.filterMap _
  refine ⟨(hcl.map clienteDe).dedup, (hcl.map produtoDe).dedup,
    (hcl.map localidadeDe).dedup, ?_, hcl⟩
  show ((((transformar_dados df₁).2.2.2.2.map
      (fun c => c.data_venda)).dedup).map tempoRow).Perm
    ((((transformar_dados df₂).2.2.2.2.map (fun c => c.data_venda)).dedup).map tempoRow)
  exact ((hcl.map (fun c => c.data_venda)).dedup).map tempoRow

/-- C7 witness: swapping the two rows of the duplicate-customer dataset
permutes the customer dimension output. -/
theorem transformar_ordem_independente_witness :
    (transformar_dados linhasClienteDuplicado).1.Perm
      (transformar_dados [{ linhaBase with id_venda := 2, nome_cliente := "Bia" },
        linhaBase]).1 :=
  (transformar_ordem_independente _ _ (List.Perm.swap _ _ _)).1

/-- Length of a `flatMap` whose per-element list lengths are constant. -/
theorem length_flatMap_const {α β : Type} (l : List α) (f : α → List β) (n : Nat)
    (h : ∀ a ∈ l, (f a).length = n) : (l.flatMap f).length = l.length * n := by
  induction l with
  | nil => simp
  | cons a t ih =>
    rw [List.flatMap_cons, List.length_append, h a (List.mem_cons_self a t),
      ih (fun b hb => h b (List.mem_cons_of_mem a hb)), List.length_cons]
    ring

/-- Number of fact rows the key-resolution join derives from one candidate
row: the product of its match counts in the four re-read dimensions. -/
def nFatos (dcs : List (Int × DimCliente)) (dps : List (Int × DimProduto))
    (dls : List (Int × DimLocalidade)) (dts : List (Int × DimTempo))
    (r : CleanRecord) : Nat :=
  (matchCliente dcs r).length *
    ((matchProduto dps r).length *
      ((matchLocalidade dls r).length * (matchTempo dts r).length))

/-- The join output of one candidate row has `nFatos` rows. -/
theorem length_linha (dcs : List (Int × DimCliente)) (dps : List (Int × DimProduto))
    (dls : List (Int × DimLocalidade)) (dts : List (Int × DimTempo)) (r : CleanRecord) :
    ((matchCliente dcs r).flatMap (fun dc =>
      (matchProduto dps r).flatMap (fun dp =>
        (matchLocalidade dls r).flatMap (fun dl =>
          (matchTempo dts r).map (fun dt => projetarFato r dc dp dl dt))))).length
      = nFatos dcs dps dls dts r :=
  length_flatMap_const _ _ _ (fun _dc _ =>
    length_flatMap_const _ _ _ (fun _dp _ =>
      length_flatMap_const _ _ _ (fun _dl _ => List.length_map _ _)))

/-- The join output counts one `nFatos` term per candidate row. -/
theorem length_resolverFatos (df : List CleanRecord) (dcs : List (Int × DimCliente))
    (dps : List (Int × DimProduto)) (dls : List (Int × DimLocalidade))
    (dts : List (Int × DimTempo)) :
    (resolverFatos df dcs dps dls dts).length = (df.map (nFatos dcs dps dls dts)).sum := by
  induction df with
  | nil => rfl
  | cons r t ih =>
    have hcons : resolverFatos (r :: t) dcs dps dls dts =
        ((matchCliente dcs r).flatMap (fun dc =>
          (matchProduto dps r).flatMap (fun dp =>
            (matchLocalidade dls r).flatMap (fun dl =>
              (matchTempo dts r).map (fun dt => projetarFato r dc dp dl dt)))))
          ++ resolverFatos t dcs dps dls dts := by
      simp [resolverFatos]
    rw [hcons, List.length_append, length_linha, ih, List.map_cons, List.sum_cons]

/-- With pairwise-distinct keys, at most one list element matches a key. -/
theorem length_filter_key_le_one {α κ : Type} [DecidableEq κ] (key : α → κ) (l : List α)
    (k : κ) (h : (l.map key).Nodup) :
    (l.filter (fun a => key a == k)).length ≤ 1 := by
  induction l with
  | nil => simp
  | cons a t ih =>
    rw [List.map_cons, List.nodup_cons] at h
    by_cases hk : key a = k
    · rw [List.filter_cons_of_pos (by simpa using hk)]
      have hnil : t.filter (fun b => key b == k) = [] := by
        rw [List.filter_eq_nil_iff]
        intro b hb hbk
        have hkb : key b = k := by simpa using hbk
        exact h.1 (by rw [hk, ← hkb]; exact List.mem_map_of_mem key hb)
      simp [hnil]
    · rw [List.filter_cons_of_neg (by simpa using hk)]
      exact ih h.2

/-- A list of naturals each at most 1 sums to at most its length, with
equality exactly when every entry is 1. -/
theorem sum_le_length_of_le_one {l : List Nat} (h : ∀ x ∈ l, x ≤ 1) :
    l.sum ≤ l.length ∧ (l.sum = l.length ↔ ∀ x ∈ l, x = 1) := by
  induction l with
  | nil => simp
  | cons a t ih =>
    obtain ⟨hle, hiff⟩ := ih (fun x hx => h x (List.mem_cons_of_mem a hx))
    have ha : a ≤ 1 := h a (List.mem_cons_self a t)
    rw [List.sum_cons, List.length_cons]
    refine ⟨by omega, ?_, ?_⟩
    · intro he
      have h1 : a = 1 ∧ t.sum = t.length := by omega
      intro x hx
      rcases List.mem_cons.mp hx with hx | hx
      · rw [hx]; exact h1.1
      · exact (hiff.mp h1.2) x hx
    · intro hall
      have ha1 : a = 1 := hall a (List.mem_cons_self a t)
      have ht : t.sum = t.length := hiff.mpr (fun x hx => hall x (List.mem_cons_of_mem a hx))
      omega

/-- C1 (amended): provided each re-read dimension's natural keys are
duplicate-free, the key-resolution joins produce at most `|candidates|` fact
rows, with equality iff every candidate row's four natural keys each match an
entry of the corresponding dimension; a candidate row missing a match in any
dimension contributes no fact row — a silent drop by the total join function,
not an error. -/
theorem resolverFatos_contagem (df : List CleanRecord) (dcs : List (Int × DimCliente))
    (dps : List (Int × DimProduto)) (dls : List (Int × DimLocalidade))
    (dts : List (Int × DimTempo))
    (hcnd : (dcs.map (fun d => d.2.id_cliente)).Nodup)
    (hpnd : (dps.map (fun d => d.2.id_produto)).Nodup)
    (hlnd : (dls.map (fun d => d.2.id_localidade)).Nodup)
    (htnd : (dts.map (fun d => d.2.data_venda)).Nodup) :
    (resolverFatos df dcs dps dls dts).length ≤ df.length ∧
    ((resolverFatos df dcs dps dls dts).length = df.length ↔
      ∀ r ∈ df, matchCliente dcs r ≠ [] ∧ matchProduto dps r ≠ [] ∧
        matchLocalidade dls r ≠ [] ∧ matchTempo dts r ≠ []) ∧
    (∀ r : CleanRecord,
      (matchCliente dcs r = [] ∨ matchProduto dps r = [] ∨
        matchLocalidade dls r = [] ∨ matchTempo dts r = []) →
      resolverFatos [r] dcs dps dls dts = []) := by
  have hc1 : ∀ r : CleanRecord, (matchCliente dcs r).length ≤ 1 := by
    intro r
    show (dcs.filter (fun d => d.2.id_cliente == r.id_cliente)).length ≤ 1
    exact length_filter_key_le_one (fun d => d.2.id_cliente) dcs r.id_cliente hcnd
  have hp1 : ∀ r : CleanRecord, (matchProduto dps r).length ≤ 1 := by
    intro r
    show (dps.filter (fun d => d.2.id_produto == r.id_produto)).length ≤ 1
    exact length_filter_key_le_one (fun d => d.2.id_produto) dps r.id_produto hpnd
  have hl1 : ∀ r : CleanRecord, (matchLocalidade dls r).length ≤ 1 := by
    intro r
    show (dls.filter (fun d => d.2.id_localidade == r.id_localidade)).length ≤ 1
    exact length_filter_key_le_one (fun d => d.2.id_localidade) dls r.id_localidade hlnd
  have ht1 : ∀ r : CleanRecord, (matchTempo dts r).length ≤ 1 := by
    intro r
    show (dts.filter (fun d => d.2.data_venda == r.data_venda)).length ≤ 1
    exact length_filter_key_le_one (fun d => d.2.data_venda) dts r.data_venda htnd
  have hb : ∀ r : CleanRecord, nFatos dcs dps dls dts r ≤ 1 := by
    intro r
    have := Nat.mul_le_mul (hc1 r)
      (Nat.mul_le_mul (hp1 r) (Nat.mul_le_mul (hl1 r) (ht1 r)))
    simpa [nFatos] using this
  have hone : ∀ r : CleanRecord, (nFatos dcs dps dls dts r = 1 ↔
      matchCliente dcs r ≠ [] ∧ matchProduto dps r ≠ [] ∧
        matchLocalidade dls r ≠ [] ∧ matchTempo dts r ≠ []) := by
    intro r
    rw [nFatos]
    constructor
    · intro he
      refine ⟨?_, ?_, ?_, ?_⟩ <;>
        first
        | (intro hnil
           rw [hnil] at he
           simp at he)
    · rintro ⟨h1, h2, h3, h4⟩
      have e1 : (matchCliente dcs r).length = 1 :=
        Nat.le_antisymm (hc1 r) (List.length_pos.mpr h1)
      have e2 : (matchProduto dps r).length = 1 :=
        Nat.le_antisymm (hp1 r) (List.length_pos.mpr h2)
      have e3 : (matchLocalidade dls r).length = 1 :=
        Nat.le_antisymm (hl1 r) (List.length_pos.mpr h3)
      have e4 : (matchTempo dts r).length = 1 :=
        Nat.le_antisymm (ht1 r) (List.length_pos.mpr h4)
      rw [e1, e2, e3, e4]
  have hmap : ∀ x ∈ df.map (nFatos dcs dps dls dts), x ≤ 1 := by
    intro x hx
    obtain ⟨r, _, hrx⟩ := List.mem_map.mp hx
    rw [← hrx]
    exact hb r
  obtain ⟨hle, hiff⟩ := sum_le_length_of_le_one hmap
  rw [length_resolverFatos]
  refine ⟨?_, ?_, ?_⟩
  · rw [← List.length_map df (nFatos dcs dps dls dts)]
    exact hle
  · rw [← List.length_map df (nFatos dcs dps dls dts), hiff]
    constructor
    · intro hall r hr
      exact (hone r).mp (hall _ (List.mem_map_of_mem _ hr))
    · intro hall x hx
      obtain ⟨r, hr, hrx⟩ := List.mem_map.mp hx
      rw [← hrx]
      exact (hone r).mpr (hall r hr)
  · intro r hcase
    rcases hcase with hnil | hnil | hnil | hnil <;> simp [resolverFatos, hnil]

/-- C1 witness: on the run over the 5-row dataset the re-read dimensions have
duplicate-free keys, and the fact-row count is bounded by the candidate
count. -/
theorem resolverFatos_contagem_witness :
    (resolverFatos (transformar_dados linhasDatas).2.2.2.2
        (comSurrogates (transformar_dados linhasDatas).1)
        (comSurrogates (transformar_dados linhasDatas).2.1)
        (comSurrogates (transformar_dados linhasDatas).2.2.1)
        (comSurrogates (transformar_dados linhasDatas).2.2.2.1)).length ≤
      (transformar_dados linhasDatas).2.2.2.2.length :=
  (resolverFatos_contagem (transformar_dados linhasDatas).2.2.2.2
    (comSurrogates (transformar_dados linhasDatas).1)
    (comSurrogates (transformar_dados linhasDatas).2.1)
    (comSurrogates (transformar_dados linhasDatas).2.2.1)
    (comSurrogates (transformar_dados linhasDatas).2.2.2.1)
    (by decide) (by decide) (by decide) (by decide)).1

/-- C1 counterexample: on the run over `linhasClienteDuplicado` — two cleansed
candidate rows sharing customer id 5 under two different names — the loader's
joins emit 4 fact rows from 2 candidate rows, so the claimed count bound (and
its equality condition, though every key matches here) fails. -/
theorem fato_excede_candidatos :
    (transformar_dados linhasClienteDuplicado).2.2.2.2.length = 2 ∧
    (runPipeline linhasClienteDuplicado dwVazio).fato_vendas.length = 4 ∧
    ¬ ((runPipeline linhasClienteDuplicado dwVazio).fato_vendas.length ≤
        (transformar_dados linhasClienteDuplicado).2.2.2.2.length) :=
  ⟨by decide, by decide, by decide⟩

/-- C2 (amended): each dimension dataset is free of duplicate full rows (the
`distinct()` deduplicates whole tuples); the time dimension's natural key
(the sale date) is always unique; and the customer, product and location
natural keys are unique whenever the cleansed data determines the row's
descriptive attributes from its id. -/
theorem dimensoes_sem_duplicatas (df : List SourceRecord) :
    (transformar_dados df).1.Nodup ∧
    (transformar_dados df).2.1.Nodup ∧
    (transformar_dados df).2.2.1.Nodup ∧
    (transformar_dados df).2.2.2.1.Nodup ∧
    ((transformar_dados df).2.2.2.1.map (fun x => x.data_venda)).Nodup ∧
    ((∀ c₁ ∈ (transformar_dados df).2.2.2.2, ∀ c₂ ∈ (transformar_dados df).2.2.2.2,
        c₁.id_cliente = c₂.id_cliente → clienteDe c₁ = clienteDe c₂) →
      ((transformar_dados df).1.map (fun x => x.id_cliente)).Nodup) ∧
    ((∀ c₁ ∈ (transformar_dados df).2.2.2.2, ∀ c₂ ∈ (transformar_dados df).2.2.2.2,
        c₁.id_produto = c₂.id_produto → produtoDe c₁ = produtoDe c₂) →
      ((transformar_dados df).2.1.map (fun x => x.id_produto)).Nodup) ∧
    ((∀ c₁ ∈ (transformar_dados df).2.2.2.2, ∀ c₂ ∈ (transformar_dados df).2.2.2.2,
        c₁.id_localidade = c₂.id_localidade → localidadeDe c₁ = localidadeDe c₂) →
      ((transformar_dados df).2.2.1.map (fun x => x.id_localidade)).Nodup) := by
  have htempo : Function.Injective tempoRow := by
    intro a b hab
    exact congrArg DimTempo.data_venda hab
  have hdtnd : (transformar_dados df).2.2.2.1.Nodup :=
    (List.nodup_dedup _).map htempo
  refine ⟨List.nodup_dedup _, List.nodup_dedup _, List.nodup_dedup _, hdtnd, ?_, ?_, ?_, ?_⟩
  · show ((((transformar_dados df).2.2.2.2.map
        (fun c => c.data_venda)).dedup.map tempoRow).map (fun x => x.data_venda)).Nodup
    rw [List.map_map]
    have hid : ((fun x : DimTempo => x.data_venda) ∘ tempoRow) = id := rfl
    rw [hid, List.map_id]
    exact List.nodup_dedup _
  · intro hfd
    refine List.Nodup.map_on ?_ (List.nodup_dedup _)
    intro x hx y hy hxy
    obtain ⟨c₁, hc₁, hc₁x⟩ := List.mem_map.mp (List.mem_dedup.mp hx)
    obtain ⟨c₂, hc₂, hc₂y⟩ := List.mem_map.mp (List.mem_dedup.mp hy)
    have hid : c₁.id_cliente = c₂.id_cliente := by
      have h1 : x.id_cliente = c₁.id_cliente := by rw [← hc₁x]; rfl
      have h2 : y.id_cliente = c₂.id_cliente := by rw [← hc₂y]; rfl
      rw [← h1, ← h2, hxy]
    rw [← hc₁x, ← hc₂y]
    exact hfd c₁ hc₁ c₂ hc₂ hid
  · intro hfd
    refine List.Nodup.map_on ?_ (List.nodup_dedup _)
    intro x hx y hy hxy
    obtain ⟨c₁, hc₁, hc₁x⟩ := List.mem_map.mp (List.mem_dedup.mp hx)
    obtain ⟨c₂, hc₂, hc₂y⟩ := List.mem_map.mp (List.mem_dedup.mp hy)
    have hid : c₁.id_produto = c₂.id_produto := by
      have h1 : x.id_produto = c₁.id_produto := by rw [← hc₁x]; rfl
      have h2 : y.id_produto = c₂.id_produto := by rw [← hc₂y]; rfl
      rw [← h1, ← h2, hxy]
    rw [← hc₁x, ← hc₂y]
    exact hfd c₁ hc₁ c₂ hc₂ hid
  · intro hfd
    refine List.Nodup.map_on ?_ (List.nodup_dedup _)
    intro x hx y hy hxy
    obtain ⟨c₁, hc₁, hc₁x⟩ := List.mem_map.mp (List.mem_dedup.mp hx)
    obtain ⟨c₂, hc₂, hc₂y⟩ := List.mem_map.mp (List.mem_dedup.mp hy)
    have hid : c₁.id_localidade = c₂.id_localidade := by
      have h1 : x.id_localidade = c₁.id_localidade := by rw [← hc₁x]; rfl
      have h2 : y.id_localidade = c₂.id_localidade := by rw [← hc₂y]; rfl
      rw [← h1, ← h2, hxy]
    rw [← hc₁x, ← hc₂y]
    exact hfd c₁ hc₁ c₂ hc₂ hid

/-- C2 witness: on the 5-row dataset (a single customer), the customer
attributes are determined by the customer id, so customer natural keys come
out unique. -/
theorem dimensoes_sem_duplicatas_witness :
    ((transformar_dados linhasDatas).1.map (fun x => x.id_cliente)).Nodup :=
  (dimensoes_sem_duplicatas linhasDatas).2.2.2.2.2.1 (by decide)

/-- C2 counterexample: the customer dimension derived from
`linhasClienteDuplicado` holds two rows with the same natural key
`id_cliente = 5` (the names differ), because `distinct()` deduplicates whole
tuples rather than natural keys. -/
theorem dimensao_cliente_chave_duplicada :
    ((transformar_dados linhasClienteDuplicado).1.map (fun x => x.id_cliente)) = [5, 5] ∧
    ¬ ((transformar_dados linhasClienteDuplicado).1.map (fun x => x.id_cliente)).Nodup ∧
    (transformar_dados linhasClienteDuplicado).1.length = 2 :=
  ⟨by decide, by decide, by decide⟩

/-- C8: in every loader run the four overwriting dimension writes precede
every dimension read-back, every read-back precedes the single fact write,
the final warehouse state does not depend on the prior state (full overwrite),
and the fact table content is computed from the read-back dimension tables. -/
theorem carregar_fases_ordenadas (dc : List DimCliente) (dp : List DimProduto)
    (dl : List DimLocalidade) (dt : List DimTempo) (df : List CleanRecord)
    (w : Warehouse) :
    (carregar_dados dc dp dl dt df w).2 = traceCarga ∧
    (∀ i j : Fin traceCarga.length,
      (traceCarga.get i).isDimWrite = true →
      (traceCarga.get j).isDimRead = true →
      (i : Nat) < (j : Nat)) ∧
    (∀ j k : Fin traceCarga.length,
      (traceCarga.get j).isDimRead = true →
      (traceCarga.get k) = DWEvent.writeFato →
      (j : Nat) < (k : Nat)) ∧
    (traceCarga.countP (fun e => e.isDimWrite) = 4) ∧
    (traceCarga.countP (fun e => e.isDimRead) = 4) ∧
    (traceCarga.count DWEvent.writeFato = 1) ∧
    (∀ w' : Warehouse,
      (carregar_dados dc dp dl dt df w).1 = (carregar_dados dc dp dl dt df w').1) ∧
    (carregar_dados dc dp dl dt df w).1.dim_cliente = comSurrogates dc ∧
    (carregar_dados dc dp dl dt df w).1.dim_produto = comSurrogates dp ∧
    (carregar_dados dc dp dl dt df w).1.dim_localidade = comSurrogates dl ∧
    (carregar_dados dc dp dl dt df w).1.dim_tempo = comSurrogates dt ∧
    (carregar_dados dc dp dl dt df w).1.fato_vendas =
      resolverFatos df (comSurrogates dc) (comSurrogates dp) (comSurrogates dl)
        (comSurrogates dt) :=
  ⟨rfl, by decide, by decide, by decide, by decide, by decide,
    fun _ => rfl, rfl, rfl, rfl, rfl, rfl⟩

/-- C8 witness: on a concrete run, the first dimension write (position 0)
precedes the first read-back (position 4). -/
theorem carregar_fases_ordenadas_witness : (0 : Nat) < (4 : Nat) :=
  (carregar_fases_ordenadas [] [] [] [] [] dwVazio).2.1
    ⟨0, by decide⟩ ⟨4, by decide⟩ (by decide) (by decide)
